import Mathlib

/-!
Verification of the ZahraSnaps media-gallery client.

The TypeScript source under `src/` is shallowly embedded below:
asynchronous operations become pure functions, a promise that resolves
becomes `Except.ok`, a promise that rejects (a thrown value) becomes
`Except.error`, and the sequence of backend calls an event handler
issues is recorded as an explicit trace list.  Timing (setTimeout) is
recorded as the list of requested delays in milliseconds.
-/

/-- A JavaScript error value, reduced to its `message` field (the only
field the embedded code reads). -/
structure JsError where
  message : String
deriving DecidableEq, Repr

/-!  ### `withRetry` (src/src/lib/supabase.ts)

```ts
async function withRetry<T>(operation, maxRetries = 5, baseDelay = 1000) {
  let lastError;
  for (let i = 0; i < maxRetries; i++) {
    try {
      if (!checkOnline()) { await <suspend until the online event fires> }
      return await operation();
    } catch (error) {
      lastError = error;
      if (i < maxRetries - 1) {
        const delay = baseDelay * Math.pow(2, i);
        await new Promise(resolve => setTimeout(resolve, delay));
      }
    }
  }
  throw lastError;
}
```

The operation is modelled per-attempt: `op i` is what the `i`-th
invocation of the thunk resolves (`Except.ok`) or rejects
(`Except.error`) to.  The offline suspension awaits a promise that
resolves when the online event fires and then proceeds with the same
attempt; it performs no backend call and no `setTimeout`, so in this
pure embedding it has no observable effect on the run log and is
elided.  `lastError` starts out `undefined`, modelled as `none`. -/
structure RunLog (E T : Type) where
  /-- number of invocations of the wrapped operation -/
  attempts : Nat
  /-- the `setTimeout` delays requested, in order, in milliseconds -/
  delays : List Nat
  /-- `.ok v` if `withRetry` resolves with `v`; `.error e` if it rejects,
  where `e = none` stands for a thrown `undefined` -/
  outcome : Except (Option E) T
deriving Repr

/-- The `for` loop of `withRetry`.  `fuel` counts the iterations still to
run (`maxRetries - i`, so the guard `i < maxRetries` is `fuel > 0`). -/
def withRetryLoop {E T : Type} (op : Nat → Except E T) (baseDelay maxRetries : Nat) :
    Nat → Nat → Option E → Nat → List Nat → RunLog E T
  | 0, _, lastError, atts, ds => ⟨atts, ds, .error lastError⟩
  | fuel + 1, i, _, atts, ds =>
    match op i with
    | .ok v => ⟨atts + 1, ds, .ok v⟩
    | .error e =>
      if i < maxRetries - 1 then
        withRetryLoop op baseDelay maxRetries fuel (i + 1) (some e) (atts + 1)
          (ds ++ [baseDelay * 2 ^ i])
      else
        withRetryLoop op baseDelay maxRetries fuel (i + 1) (some e) (atts + 1) ds

def withRetry {E T : Type} (op : Nat → Except E T) (maxRetries : Nat := 5)
    (baseDelay : Nat := 1000) : RunLog E T :=
  withRetryLoop op baseDelay maxRetries maxRetries 0 none 0 []

/-!  ### The client's custom `global.fetch` (src/src/lib/supabase.ts)

```ts
fetch: async (url, options = {}) => {
  try {
    const headers = { ...options.headers, apikey, Authorization, ... };
    return await withRetry(() => fetch(url, { ...options, headers }));
  } catch (error) {
    console.error('Supabase fetch error:', error);
    throw new Error('Unable to connect to the server. Please check your internet connection.');
  }
}
```

`doFetch i` is what the `i`-th underlying `fetch` call resolves or
rejects to.  The header merging affects only the request payload, which
no claim is about, so only the control flow is modelled. -/
def connectivityErrorMessage : String :=
  "Unable to connect to the server. Please check your internet connection."

def supabaseGlobalFetch {R : Type} (doFetch : Nat → Except JsError R) :
    Except JsError R :=
  match (withRetry doFetch 5 1000).outcome with
  | .ok r => .ok r
  | .error _ => .error ⟨connectivityErrorMessage⟩

-- sanity checks on small concrete runs
example :
    (withRetry (fun i => if i < 2 then Except.error (JsError.mk "boom") else Except.ok (37 : Nat))
      5 1000).outcome = .ok 37 := rfl
example :
    (withRetry (fun i => if i < 2 then Except.error (JsError.mk "boom") else Except.ok (37 : Nat))
      5 1000).delays = [1000, 2000] := by decide
example :
    (withRetry (fun _ => (Except.error (JsError.mk "boom") : Except JsError Nat)) 5 1000).attempts
      = 5 := by decide

/-- C1: for every N in [0,4], if the wrapped operation fails N times with
transient errors and then succeeds, `withRetry` returns that success
without raising, performing exactly N+1 invocations with waits of
1000*2^0, …, 1000*2^(N-1) milliseconds between consecutive invocations
and no wait after the final, successful one. -/
theorem withRetry_transient_failures_then_success
    {E T : Type} (errs : Nat → E) (op : Nat → Except E T) (v : T) (N : Nat)
    (hN : N ≤ 4)
    (hfail : ∀ i, i < N → op i = .error (errs i))
    (hsucc : op N = .ok v) :
    (withRetry op 5 1000).outcome = .ok v ∧
    (withRetry op 5 1000).attempts = N + 1 ∧
    (withRetry op 5 1000).delays = (List.range N).map (fun i => 1000 * 2 ^ i) := by
  interval_cases N <;>
    simp_all [withRetry, withRetryLoop, List.range_succ]

def wRetryOp : Nat → Except JsError Nat :=
  fun i => if i < 2 then .error ⟨"transient"⟩ else .ok 7

theorem withRetry_transient_failures_then_success_witness :
    (withRetry wRetryOp 5 1000).outcome = .ok 7 ∧
    (withRetry wRetryOp 5 1000).attempts = 2 + 1 ∧
    (withRetry wRetryOp 5 1000).delays = (List.range 2).map (fun i => 1000 * 2 ^ i) :=
  withRetry_transient_failures_then_success (fun _ => ⟨"transient"⟩) wRetryOp 7 2
    (by omega) (fun i hi => by interval_cases i <;> rfl) rfl

/-- C2: if the wrapped operation fails on all 5 attempts, `withRetry`
rejects with exactly the error of the final (5th) attempt, unmodified;
the client's custom fetch function catches that error and raises to its
own caller the distinct generic connectivity error "Unable to connect to
the server. Please check your internet connection.", not the original. -/
theorem withRetry_exhaustion_final_error_and_generic_fetch_error
    {R : Type} (errs : Nat → JsError) (doFetch : Nat → Except JsError R)
    (hfail : ∀ i, i < 5 → doFetch i = .error (errs i)) :
    (withRetry doFetch 5 1000).outcome = .error (some (errs 4)) ∧
    (withRetry doFetch 5 1000).attempts = 5 ∧
    supabaseGlobalFetch doFetch =
      .error ⟨"Unable to connect to the server. Please check your internet connection."⟩ := by
  have h0 := hfail 0 (by omega)
  have h1 := hfail 1 (by omega)
  have h2 := hfail 2 (by omega)
  have h3 := hfail 3 (by omega)
  have h4 := hfail 4 (by omega)
  simp [withRetry, withRetryLoop, supabaseGlobalFetch, connectivityErrorMessage,
    h0, h1, h2, h3, h4]

def wFetchOp : Nat → Except JsError Nat := fun i => .error ⟨toString i⟩

theorem withRetry_exhaustion_final_error_and_generic_fetch_error_witness :
    (withRetry wFetchOp 5 1000).outcome = .error (some ⟨toString 4⟩) ∧
    (withRetry wFetchOp 5 1000).attempts = 5 ∧
    supabaseGlobalFetch wFetchOp =
      .error ⟨"Unable to connect to the server. Please check your internet connection."⟩ :=
  withRetry_exhaustion_final_error_and_generic_fetch_error
    (fun i => ⟨toString i⟩) wFetchOp (fun _ _ => rfl)

/-!  ### `supabaseOperation` (src/src/lib/supabase.ts)

```ts
export async function supabaseOperation<T>(
  operation: () => Promise<{ data: T | null; error: any }>,
  errorMessage: string
): Promise<T> {
  if (!checkOnline()) {
    throw new Error('You are currently offline. Please check your internet connection.');
  }
  try {
    const { data, error } = await withRetry(() => operation());
    if (error) {
      console.error(`errorMessage:`, error);
      throw error;
    }
    if (!data) { throw new Error('No data returned from server'); }
    return data;
  } catch (error: any) {
    const message = error.message || 'An unexpected error occurred';
    console.error(`errorMessage:`, error);
    throw new Error(`errorMessage: message`);
  }
}
```

`online` is the value of `checkOnline()`; `operation i` is what the
`i`-th invocation of the thunk resolves or rejects to. -/
structure SbResult (T : Type) where
  data : Option T
  error : Option JsError
deriving Repr

def offlineErrorMessage : String :=
  "You are currently offline. Please check your internet connection."

/-- The body of the `try` block: the value `return`ed, or the error
thrown inside it (`.error none` is a thrown `undefined`, possible only
with zero retries). -/
def supabaseOperationTry {T : Type} (operation : Nat → Except JsError (SbResult T)) :
    Except (Option JsError) T :=
  match (withRetry operation 5 1000).outcome with
  | .error e => .error e
  | .ok r =>
    match r.error with
    | some err => .error (some err)
    | none =>
      match r.data with
      | none => .error (some ⟨"No data returned from server"⟩)
      | some d => .ok d

/-- `error.message || 'An unexpected error occurred'`: a falsy (empty)
message falls back to the default. -/
def jsErrorMessageOrDefault : Option JsError → String
  | some e => if e.message = "" then "An unexpected error occurred" else e.message
  | none => "An unexpected error occurred"

def supabaseOperation {T : Type} (online : Bool)
    (operation : Nat → Except JsError (SbResult T)) (errorMessage : String) :
    Except JsError T :=
  if online = false then
    .error ⟨offlineErrorMessage⟩
  else
    match supabaseOperationTry operation with
    | .ok d => .ok d
    | .error e => .error ⟨errorMessage ++ ": " ++ jsErrorMessageOrDefault e⟩

/-- A thunk whose first invocation resolves makes `withRetry` return at
once with one attempt and no delay. -/
theorem withRetry_first_ok {E T : Type} (op : Nat → Except E T) (r : T)
    (h : op 0 = .ok r) : withRetry op 5 1000 = ⟨1, [], .ok r⟩ := by
  simp [withRetry, withRetryLoop, h]

-- sanity checks
example :
    supabaseOperation true (fun _ => .ok (⟨none, none⟩ : SbResult Nat)) "Lbl" =
      .error ⟨"Lbl: No data returned from server"⟩ := rfl
example :
    supabaseOperation true (fun _ => .ok (⟨some 5, none⟩ : SbResult Nat)) "Lbl" = .ok 5 := rfl

/-- C4: for every thunk and operation label: offline fails immediately
with the "you are offline" error, with a result independent of the thunk;
online with the thunk resolving to a result carrying an error raises an
error whose message contains both the label and the underlying message;
online with no error but absent data raises the "No data returned from
server" error; online with data present returns that data. -/
theorem supabaseOperation_behaviour {T : Type}
    (operation : Nat → Except JsError (SbResult T)) (label : String) (r : SbResult T)
    (hop : ∀ i, operation i = .ok r) :
    (∀ op2 : Nat → Except JsError (SbResult T),
      supabaseOperation false op2 label =
        .error ⟨"You are currently offline. Please check your internet connection."⟩) ∧
    (∀ err, r.error = some err →
      ∃ msg, supabaseOperation true operation label = .error ⟨msg⟩ ∧
        (∃ a b, msg = a ++ label ++ b) ∧ (∃ c d, msg = c ++ err.message ++ d)) ∧
    (r.error = none → r.data = none →
      supabaseOperation true operation label =
        .error ⟨label ++ ": " ++ "No data returned from server"⟩) ∧
    (∀ d, r.error = none → r.data = some d →
      supabaseOperation true operation label = .ok d) := by
  have hfirst := withRetry_first_ok operation r (hop 0)
  refine ⟨?_, ?_, ?_, ?_⟩
  · intro op2
    simp [supabaseOperation, offlineErrorMessage]
  · intro err herr
    refine ⟨label ++ ": " ++ jsErrorMessageOrDefault (some err), ?_, ?_, ?_⟩
    · simp [supabaseOperation, supabaseOperationTry, hfirst, herr]
    · exact ⟨"", ": " ++ jsErrorMessageOrDefault (some err), by
        simp [String.append_assoc]⟩
    · by_cases hmsg : err.message = ""
      · exact ⟨label ++ ": " ++ jsErrorMessageOrDefault (some err), "", by simp [hmsg]⟩
      · exact ⟨label ++ ": ", "", by simp [jsErrorMessageOrDefault, hmsg]⟩
  · intro herr hdata
    simp [supabaseOperation, supabaseOperationTry, hfirst, herr, hdata,
      jsErrorMessageOrDefault]
  · intro d herr hdata
    simp [supabaseOperation, supabaseOperationTry, hfirst, herr, hdata]

def wOpDenied : Nat → Except JsError (SbResult Nat) :=
  fun _ => .ok ⟨none, some ⟨"denied"⟩⟩

theorem supabaseOperation_behaviour_witness :
    (∀ op2 : Nat → Except JsError (SbResult Nat),
      supabaseOperation false op2 "Error fetching media" =
        .error ⟨"You are currently offline. Please check your internet connection."⟩) ∧
    (∀ err, (SbResult.mk (none : Option Nat) (some ⟨"denied"⟩)).error = some err →
      ∃ msg, supabaseOperation true wOpDenied "Error fetching media" = .error ⟨msg⟩ ∧
        (∃ a b, msg = a ++ "Error fetching media" ++ b) ∧
        (∃ c d, msg = c ++ err.message ++ d)) ∧
    ((SbResult.mk (none : Option Nat) (some ⟨"denied"⟩)).error = none →
      (SbResult.mk (none : Option Nat) (some ⟨"denied"⟩)).data = none →
      supabaseOperation true wOpDenied "Error fetching media" =
        .error ⟨"Error fetching media" ++ ": " ++ "No data returned from server"⟩) ∧
    (∀ d, (SbResult.mk (none : Option Nat) (some ⟨"denied"⟩)).error = none →
      (SbResult.mk (none : Option Nat) (some ⟨"denied"⟩)).data = some d →
      supabaseOperation true wOpDenied "Error fetching media" = .ok d) :=
  supabaseOperation_behaviour wOpDenied
    "Error fetching media" ⟨none, some ⟨"denied"⟩⟩ (fun _ => rfl)

/-- C5 counterexample: the offline-path error raised by
`supabaseOperation` has the fixed offline message, which is not prefixed
with the supplied operation label. -/
theorem supabaseOperation_offline_error_not_label_prefixed :
    supabaseOperation false (fun _ => .ok (⟨some 1, none⟩ : SbResult Nat))
        "Error fetching media" =
      .error ⟨"You are currently offline. Please check your internet connection."⟩ ∧
    ¬ ∃ rest, ("You are currently offline. Please check your internet connection." : String) =
        "Error fetching media" ++ rest := by
  refine ⟨rfl, ?_⟩
  rintro ⟨rest, h⟩
  have hd := congrArg String.data h
  simp [String.data_append] at hd

/-- C5 amended: every error `supabaseOperation` raises while online (the
backend-error and missing-data paths) has a message prefixed with the
supplied operation label; the offline-precondition error instead carries
the fixed offline message, not prefixed with the label. -/
theorem supabaseOperation_online_errors_label_prefixed {T : Type}
    (operation : Nat → Except JsError (SbResult T)) (label : String) (e : JsError)
    (h : supabaseOperation true operation label = .error e) :
    (∃ rest, e.message = label ++ ": " ++ rest) ∧
    (supabaseOperation false operation label = .error ⟨offlineErrorMessage⟩) := by
  refine ⟨?_, by simp [supabaseOperation]⟩
  unfold supabaseOperation at h
  cases htry : supabaseOperationTry operation with
  | ok d => simp [htry] at h
  | error e0 =>
    simp [htry] at h
    exact ⟨jsErrorMessageOrDefault e0, by rw [← h]⟩

theorem supabaseOperation_online_errors_label_prefixed_witness :
    (∃ rest, (JsError.mk "Lbl: No data returned from server").message =
      "Lbl" ++ ": " ++ rest) ∧
    (supabaseOperation false (fun _ => .ok (⟨none, none⟩ : SbResult Nat)) "Lbl" =
      .error ⟨offlineErrorMessage⟩) :=
  supabaseOperation_online_errors_label_prefixed
    (fun _ => .ok (⟨none, none⟩ : SbResult Nat)) "Lbl"
    ⟨"Lbl: No data returned from server"⟩ rfl

/-!  ### Row-store queries issued by the Gallery view (src/src/pages/Gallery.tsx)

Each supabase query-builder chain is embedded as the `RowQuery` it
issues: the target table, whether it selects or deletes rows, and the
row filters attached (`.eq(column, value)` and
`.filter(column, 'is', null)`).  Ordering (`.order(...)`) affects only
presentation and is not recorded. -/
inductive QueryFilter where
  | eqF (column value : String)
  | isNullF (column : String)
deriving DecidableEq, Repr

inductive QueryKind where
  | selectAll
  | deleteRows
deriving DecidableEq, Repr

structure RowQuery where
  table : String
  kind : QueryKind
  filters : List QueryFilter
deriving DecidableEq, Repr

/-- `fetchMedia`:
```ts
let query = supabase.from('photos').select('*')
  .eq('uploaded_by', user.id).order('created_at', { ascending: false });
if (currentFolder) { query = query.eq('folder_id', currentFolder); }
else { query = query.filter('folder_id', 'is', null); }
```
`if (currentFolder)` is a JS truthiness test, so an empty string behaves
like null. -/
def fetchMediaQuery (userId : String) (currentFolder : Option String) : RowQuery :=
  { table := "photos", kind := .selectAll,
    filters := [.eqF "uploaded_by" userId] ++
      (match currentFolder with
       | some f => if f = "" then [.isNullF "folder_id"] else [.eqF "folder_id" f]
       | none => [.isNullF "folder_id"]) }

/-- `fetchFolders`: `supabase.from('folders').select('*')
.eq('user_id', user.id).order('created_at', ...)`. -/
def fetchFoldersQuery (userId : String) : RowQuery :=
  { table := "folders", kind := .selectAll, filters := [.eqF "user_id" userId] }

/-- `deleteFolder`, first request:
`supabase.from('photos').delete().eq('folder_id', folderId)`. -/
def deleteFolderPhotosQuery (folderId : String) : RowQuery :=
  { table := "photos", kind := .deleteRows, filters := [.eqF "folder_id" folderId] }

/-- `deleteFolder`, second request:
`supabase.from('folders').delete().eq('id', folderId)`. -/
def deleteFolderRowQuery (folderId : String) : RowQuery :=
  { table := "folders", kind := .deleteRows, filters := [.eqF "id" folderId] }

/-- `deleteMedia`, row request:
`supabase.from('photos').delete().eq('id', item.id)`. -/
def deleteMediaRowQuery (itemId : String) : RowQuery :=
  { table := "photos", kind := .deleteRows, filters := [.eqF "id" itemId] }

/-- A query filters on the current user's identifier when it carries an
equality filter binding one of the two user columns of the schema
(`uploaded_by` on photos, `user_id` on folders) to that identifier. -/
def filtersOnUser (userId : String) (q : RowQuery) : Prop :=
  QueryFilter.eqF "uploaded_by" userId ∈ q.filters ∨
  QueryFilter.eqF "user_id" userId ∈ q.filters

instance (userId : String) (q : RowQuery) : Decidable (filtersOnUser userId q) := by
  unfold filtersOnUser; infer_instance

/-- C3 counterexample: for user "u1", the three delete queries the
Gallery view issues (child media of folder "f1", folder row "f1", media
row "m1") carry no filter on the user's identifier, refuting the claim
that every row-store query includes one. -/
theorem delete_queries_lack_user_filter :
    ¬ filtersOnUser "u1" (deleteFolderPhotosQuery "f1") ∧
    ¬ filtersOnUser "u1" (deleteFolderRowQuery "f1") ∧
    ¬ filtersOnUser "u1" (deleteMediaRowQuery "m1") := by
  decide

/-- C3 amended: the two fetch queries (media, folders) filter on the
current user's identifier, but the three delete queries (a folder's
child media rows, the folder row, a media row) filter solely on the
folder or media id, with no filter on the user's identifier. -/
theorem gallery_query_user_scoping (userId folderId itemId : String)
    (currentFolder : Option String) :
    filtersOnUser userId (fetchMediaQuery userId currentFolder) ∧
    filtersOnUser userId (fetchFoldersQuery userId) ∧
    (deleteFolderPhotosQuery folderId).filters = [.eqF "folder_id" folderId] ∧
    (deleteFolderRowQuery folderId).filters = [.eqF "id" folderId] ∧
    (deleteMediaRowQuery itemId).filters = [.eqF "id" itemId] := by
  refine ⟨?_, ?_, rfl, rfl, rfl⟩
  · left
    simp [fetchMediaQuery]
  · right
    simp [fetchFoldersQuery]

/-- C9: with `currentFolder = null` the media query's folder condition is
an IS-NULL filter on `folder_id` and no equality filter on `folder_id`
(in particular not one with the empty string); with
`currentFolder = "f1"` it is an equality of `folder_id` with "f1" and no
IS-NULL filter. -/
theorem fetchMedia_root_vs_folder_filter (userId : String) :
    (QueryFilter.isNullF "folder_id" ∈ (fetchMediaQuery userId none).filters ∧
     ∀ v, QueryFilter.eqF "folder_id" v ∉ (fetchMediaQuery userId none).filters) ∧
    (QueryFilter.eqF "folder_id" "f1" ∈ (fetchMediaQuery userId (some "f1")).filters ∧
     QueryFilter.isNullF "folder_id" ∉ (fetchMediaQuery userId (some "f1")).filters) := by
  refine ⟨⟨?_, ?_⟩, ?_, ?_⟩ <;> simp [fetchMediaQuery]

/-!  ### `deleteFolder` (src/src/pages/Gallery.tsx)

```ts
const deleteFolder = async (folderId: string) => {
  if (!user) return;
  if (!confirm('Are you sure ...?')) return;
  try {
    const { error: photosError } =
      await supabase.from('photos').delete().eq('folder_id', folderId);
    if (photosError) throw photosError;
    const { error: folderError } =
      await supabase.from('folders').delete().eq('id', folderId);
    if (folderError) throw folderError;
    fetchFolders(); ...
  } catch (error) { ...alert('Error deleting folder'); }
};
```

The backend row store is embedded as explicit lists of rows; a delete
request that the backend answers with an error leaves the rows
untouched, one it answers without error removes every matching row.
`photosDeleteErr` / `folderDeleteErr` inject the backend's answer to
each of the two requests. -/
structure PhotoRow where
  id : String
  folder_id : Option String
  uploaded_by : String
deriving DecidableEq, Repr

structure FolderRow where
  id : String
  user_id : String
  name : String
deriving DecidableEq, Repr

structure GalleryDb where
  photos : List PhotoRow
  folders : List FolderRow
deriving DecidableEq, Repr

structure DeleteFolderRun where
  db : GalleryDb
  issued : List RowQuery
  alerted : Bool
deriving DecidableEq, Repr

def deleteFolderRun (db : GalleryDb) (folderId : String)
    (userPresent confirmed : Bool)
    (photosDeleteErr folderDeleteErr : Option JsError) : DeleteFolderRun :=
  if userPresent = false then ⟨db, [], false⟩
  else if confirmed = false then ⟨db, [], false⟩
  else
    match photosDeleteErr with
    | some _ => ⟨db, [deleteFolderPhotosQuery folderId], true⟩
    | none =>
      let db1 : GalleryDb :=
        ⟨db.photos.filter (fun p => p.folder_id ≠ some folderId), db.folders⟩
      match folderDeleteErr with
      | some _ =>
        ⟨db1, [deleteFolderPhotosQuery folderId, deleteFolderRowQuery folderId], true⟩
      | none =>
        ⟨⟨db1.photos, db1.folders.filter (fun f => f.id ≠ folderId)⟩,
          [deleteFolderPhotosQuery folderId, deleteFolderRowQuery folderId], false⟩

-- sanity check: three child rows and the folder all disappear on success
example :
    deleteFolderRun
      ⟨[⟨"m1", some "f1", "u1"⟩, ⟨"m2", some "f1", "u1"⟩,
        ⟨"m3", some "f1", "u1"⟩, ⟨"m4", none, "u1"⟩],
       [⟨"f1", "u1", "pics"⟩]⟩
      "f1" true true none none =
    ⟨⟨[⟨"m4", none, "u1"⟩], []⟩,
      [deleteFolderPhotosQuery "f1", deleteFolderRowQuery "f1"], false⟩ := by decide

/-- C7: the child-media delete request always precedes the folder-row
delete request (the trace of issued queries is always a prefix of
[child-media delete, folder-row delete]); and when the child-media
delete fails, the folder-row delete is never issued and the row store
(in particular the folder row) is left untouched. -/
theorem deleteFolder_children_first_and_abort (db : GalleryDb) (folderId : String)
    (userPresent confirmed : Bool) (pErr fErr : Option JsError) :
    ((deleteFolderRun db folderId userPresent confirmed pErr fErr).issued = [] ∨
     (deleteFolderRun db folderId userPresent confirmed pErr fErr).issued =
       [deleteFolderPhotosQuery folderId] ∨
     (deleteFolderRun db folderId userPresent confirmed pErr fErr).issued =
       [deleteFolderPhotosQuery folderId, deleteFolderRowQuery folderId]) ∧
    (∀ e, pErr = some e →
      deleteFolderRowQuery folderId ∉
        (deleteFolderRun db folderId userPresent confirmed pErr fErr).issued ∧
      (deleteFolderRun db folderId userPresent confirmed pErr fErr).db = db) := by
  cases userPresent <;> cases confirmed <;> cases pErr <;> cases fErr <;>
    simp [deleteFolderRun, deleteFolderPhotosQuery, deleteFolderRowQuery]

theorem deleteFolder_children_first_and_abort_witness :
    ((deleteFolderRun ⟨[⟨"m1", some "f1", "u1"⟩], [⟨"f1", "u1", "pics"⟩]⟩ "f1"
        true true (some ⟨"boom"⟩) none).issued = [] ∨
     (deleteFolderRun ⟨[⟨"m1", some "f1", "u1"⟩], [⟨"f1", "u1", "pics"⟩]⟩ "f1"
        true true (some ⟨"boom"⟩) none).issued = [deleteFolderPhotosQuery "f1"] ∨
     (deleteFolderRun ⟨[⟨"m1", some "f1", "u1"⟩], [⟨"f1", "u1", "pics"⟩]⟩ "f1"
        true true (some ⟨"boom"⟩) none).issued =
       [deleteFolderPhotosQuery "f1", deleteFolderRowQuery "f1"]) ∧
    (∀ e, (some (JsError.mk "boom") : Option JsError) = some e →
      deleteFolderRowQuery "f1" ∉
        (deleteFolderRun ⟨[⟨"m1", some "f1", "u1"⟩], [⟨"f1", "u1", "pics"⟩]⟩ "f1"
          true true (some ⟨"boom"⟩) none).issued ∧
      (deleteFolderRun ⟨[⟨"m1", some "f1", "u1"⟩], [⟨"f1", "u1", "pics"⟩]⟩ "f1"
        true true (some ⟨"boom"⟩) none).db =
        ⟨[⟨"m1", some "f1", "u1"⟩], [⟨"f1", "u1", "pics"⟩]⟩) :=
  deleteFolder_children_first_and_abort
    ⟨[⟨"m1", some "f1", "u1"⟩], [⟨"f1", "u1", "pics"⟩]⟩ "f1" true true
    (some ⟨"boom"⟩) none

/-!  ### `handleFileUpload` (src/src/pages/Gallery.tsx)

```ts
const file = event.target.files?.[0];
if (!file || !user) { if (!user) navigate('/login'); return; }
const isVideo = file.type.startsWith('video/');
const maxSize = isVideo ? 50 * 1024 * 1024 : 5 * 1024 * 1024;
if (file.size > maxSize) {
  alert(`File too large. Maximum size is (maxSize / (1024*1024))MB`);
  return;
}
try {
  const fileExt = file.name.split('.').pop();
  const fileName = `(random).(fileExt)`;
  const filePath = `(user.id)/(fileName)`;
  const { error: uploadError, data } =
    await supabase.storage.from('photos').upload(filePath, file, ...);
  if (uploadError) throw uploadError;
  const { error: dbError } = await supabase.from('photos').insert([
    { url: data.path, folder_id: currentFolder, uploaded_by: user.id,
      media_type: isVideo ? 'video' : 'image' }]);
  if (dbError) throw dbError;
  fetchMedia();
} catch (error) { ...alert('Error uploading file'); }
```

The trace of network calls the handler makes is recorded in order.
`randomName` stands for the `Math.random()` string; `uploadErr` /
`uploadedPath` / `insertErr` inject the storage and row-store answers.
The JS string primitives are embedded structurally over the character
list so that they evaluate inside the kernel. -/
structure JsFile where
  name : String
  mimeType : String
  size : Nat
deriving DecidableEq, Repr

/-- JS `s.startsWith(pre)`. -/
def jsStartsWith (s pre : String) : Bool :=
  List.isPrefixOf pre.data s.data

/-- JS `s.split(sep)` for a one-character separator, over char lists:
`"v.mp4".split('.') = ["v", "mp4"]`, `"".split('.') = [""]`. -/
def splitOnChar (c : Char) : List Char → List (List Char)
  | [] => [[]]
  | x :: xs =>
    let r := splitOnChar c xs
    if x = c then [] :: r
    else (x :: r.headD []) :: r.tail

/-- JS `name.split('.').pop()`: the segment after the last dot
(`Char.ofNat 46` is the dot character). -/
def jsFileExt (name : String) : String :=
  String.mk ((splitOnChar (Char.ofNat 46) name.data).getLastD [])

inductive UploadCall where
  | storageUpload (path : String)
  | insertPhotoRow (url : String) (folder_id : Option String)
      (uploaded_by : String) (media_type : String)
  | refreshMedia
deriving DecidableEq, Repr

inductive UploadOutcome where
  | noFile
  | redirectedToLogin
  | rejectedTooLarge (alertMessage : String)
  | failedWithAlert (alertMessage : String)
  | completed
deriving DecidableEq, Repr

def handleFileUpload (file : Option JsFile) (userId : Option String)
    (currentFolder : Option String) (randomName : String)
    (uploadErr : Option JsError) (uploadedPath : String)
    (insertErr : Option JsError) : List UploadCall × UploadOutcome :=
  match userId with
  | none => ([], .redirectedToLogin)
  | some uid =>
    match file with
    | none => ([], .noFile)
    | some f =>
      let isVideo := jsStartsWith f.mimeType "video/"
      let maxSize := if isVideo then 50 * 1024 * 1024 else 5 * 1024 * 1024
      if f.size > maxSize then
        ([], .rejectedTooLarge ("File too large. Maximum size is " ++
          toString (maxSize / (1024 * 1024)) ++ "MB"))
      else
        let filePath := uid ++ "/" ++ randomName ++ "." ++ jsFileExt f.name
        match uploadErr with
        | some _ => ([.storageUpload filePath], .failedWithAlert "Error uploading file")
        | none =>
          let mediaType := if isVideo then "video" else "image"
          match insertErr with
          | some _ =>
            ([.storageUpload filePath,
              .insertPhotoRow uploadedPath currentFolder uid mediaType],
              .failedWithAlert "Error uploading file")
          | none =>
            ([.storageUpload filePath,
              .insertPhotoRow uploadedPath currentFolder uid mediaType,
              .refreshMedia], .completed)

-- sanity checks: a 6MB image is rejected without any call; the
-- extension embedding matches JS
example : jsFileExt "v.mp4" = "mp4" := by decide
example :
    handleFileUpload (some ⟨"a.png", "image/png", 6 * 1024 * 1024⟩) (some "u1")
      none "r" none "p" none =
    ([], .rejectedTooLarge "File too large. Maximum size is 5MB") := by decide

/-- C8: an image larger than 5MB or a video larger than 50MB is rejected
with no network call; an accepted video with both backend steps
succeeding produces exactly one storage upload followed by exactly one
row insert (then the media refresh); if the storage upload fails, the
insert is never attempted; if the insert fails, the handler alerts and
stops without the subsequent refresh. -/
theorem handleFileUpload_size_gate_and_call_order
    (f : JsFile) (uid : String) (currentFolder : Option String) (randomName : String)
    (uploadedPath : String) (e : JsError) :
    (jsStartsWith f.mimeType "video/" = false → f.size > 5 * 1024 * 1024 →
      ∀ uErr iErr, handleFileUpload (some f) (some uid) currentFolder randomName
          uErr uploadedPath iErr =
        ([], .rejectedTooLarge "File too large. Maximum size is 5MB")) ∧
    (jsStartsWith f.mimeType "video/" = true → f.size > 50 * 1024 * 1024 →
      ∀ uErr iErr, handleFileUpload (some f) (some uid) currentFolder randomName
          uErr uploadedPath iErr =
        ([], .rejectedTooLarge "File too large. Maximum size is 50MB")) ∧
    (jsStartsWith f.mimeType "video/" = true → f.size ≤ 50 * 1024 * 1024 →
      handleFileUpload (some f) (some uid) currentFolder randomName
          none uploadedPath none =
        ([.storageUpload (uid ++ "/" ++ randomName ++ "." ++ jsFileExt f.name),
          .insertPhotoRow uploadedPath currentFolder uid "video",
          .refreshMedia], .completed) ∧
      handleFileUpload (some f) (some uid) currentFolder randomName
          (some e) uploadedPath none =
        ([.storageUpload (uid ++ "/" ++ randomName ++ "." ++ jsFileExt f.name)],
          .failedWithAlert "Error uploading file") ∧
      handleFileUpload (some f) (some uid) currentFolder randomName
          none uploadedPath (some e) =
        ([.storageUpload (uid ++ "/" ++ randomName ++ "." ++ jsFileExt f.name),
          .insertPhotoRow uploadedPath currentFolder uid "video"],
          .failedWithAlert "Error uploading file")) := by
  refine ⟨?_, ?_, ?_⟩
  · intro hvid hsize uErr iErr
    simp only [handleFileUpload, hvid, if_neg, Bool.false_eq_true, if_false,
      hsize, if_pos, gt_iff_lt]
    decide
  · intro hvid hsize uErr iErr
    simp only [handleFileUpload, hvid, if_true]
    rw [if_pos hsize]
    decide
  · intro hvid hsize
    have hnotgt : ¬ f.size > 50 * 1024 * 1024 := by omega
    refine ⟨?_, ?_, ?_⟩ <;>
      simp only [handleFileUpload, hvid, if_true] <;> rw [if_neg hnotgt]

theorem handleFileUpload_size_gate_and_call_order_witness :
    (jsStartsWith (JsFile.mk "v.mp4" "video/mp4" (40 * 1024 * 1024)).mimeType "video/"
        = false →
      (JsFile.mk "v.mp4" "video/mp4" (40 * 1024 * 1024)).size > 5 * 1024 * 1024 →
      ∀ uErr iErr, handleFileUpload
          (some ⟨"v.mp4", "video/mp4", 40 * 1024 * 1024⟩) (some "u1") (some "f1") "r"
          uErr "stored/v.mp4" iErr =
        ([], .rejectedTooLarge "File too large. Maximum size is 5MB")) ∧
    (jsStartsWith (JsFile.mk "v.mp4" "video/mp4" (40 * 1024 * 1024)).mimeType "video/"
        = true →
      (JsFile.mk "v.mp4" "video/mp4" (40 * 1024 * 1024)).size > 50 * 1024 * 1024 →
      ∀ uErr iErr, handleFileUpload
          (some ⟨"v.mp4", "video/mp4", 40 * 1024 * 1024⟩) (some "u1") (some "f1") "r"
          uErr "stored/v.mp4" iErr =
        ([], .rejectedTooLarge "File too large. Maximum size is 50MB")) ∧
    (jsStartsWith (JsFile.mk "v.mp4" "video/mp4" (40 * 1024 * 1024)).mimeType "video/"
        = true →
      (JsFile.mk "v.mp4" "video/mp4" (40 * 1024 * 1024)).size ≤ 50 * 1024 * 1024 →
      handleFileUpload (some ⟨"v.mp4", "video/mp4", 40 * 1024 * 1024⟩) (some "u1")
          (some "f1") "r" none "stored/v.mp4" none =
        ([.storageUpload ("u1" ++ "/" ++ "r" ++ "." ++
            jsFileExt (JsFile.mk "v.mp4" "video/mp4" (40 * 1024 * 1024)).name),
          .insertPhotoRow "stored/v.mp4" (some "f1") "u1" "video",
          .refreshMedia], .completed) ∧
      handleFileUpload (some ⟨"v.mp4", "video/mp4", 40 * 1024 * 1024⟩) (some "u1")
          (some "f1") "r" (some ⟨"boom"⟩) "stored/v.mp4" none =
        ([.storageUpload ("u1" ++ "/" ++ "r" ++ "." ++
            jsFileExt (JsFile.mk "v.mp4" "video/mp4" (40 * 1024 * 1024)).name)],
          .failedWithAlert "Error uploading file") ∧
      handleFileUpload (some ⟨"v.mp4", "video/mp4", 40 * 1024 * 1024⟩) (some "u1")
          (some "f1") "r" none "stored/v.mp4" (some ⟨"boom"⟩) =
        ([.storageUpload ("u1" ++ "/" ++ "r" ++ "." ++
            jsFileExt (JsFile.mk "v.mp4" "video/mp4" (40 * 1024 * 1024)).name),
          .insertPhotoRow "stored/v.mp4" (some "f1") "u1" "video"],
          .failedWithAlert "Error uploading file")) :=
  handleFileUpload_size_gate_and_call_order
    ⟨"v.mp4", "video/mp4", 40 * 1024 * 1024⟩ "u1" (some "f1") "r" "stored/v.mp4"
    ⟨"boom"⟩

/-!  ### `signOut` (src/src/contexts/AuthContext.tsx)

```ts
signOut: async () => {
  try {
    const { error } = await supabase.auth.signOut();
    if (error) throw error;
    setUser(null);
    setSession(null);
  } catch (error) {
    console.error('Error signing out:', error);
    setUser(null);
    setSession(null);
  }
},
```

The locally cached auth state is the pair of React state cells
`user`/`session`; `remote` is what the remote sign-out call does: resolve
with no error, resolve with an error in its result, or reject. -/
structure AuthState (U S : Type) where
  user : Option U
  session : Option S
deriving DecidableEq, Repr

inductive SignOutRemote where
  | success
  | errorResult (e : JsError)
  | rejects (e : JsError)
deriving DecidableEq, Repr

/-- One run of `signOut`: the resulting local auth state, paired with the
error the returned promise rejects with (`none`: it resolves). -/
def signOut {U S : Type} (st : AuthState U S) (remote : SignOutRemote) :
    AuthState U S × Option JsError :=
  match remote with
  | .success =>
    -- no error: clear local session state, resolve
    (⟨none, none⟩, none)
  | .errorResult _ =>
    -- `if (error) throw error` lands in the catch: log, force clear, resolve
    (⟨none, none⟩, none)
  | .rejects _ =>
    -- the awaited remote call rejects, caught: log, force clear, resolve
    (⟨none, none⟩, none)

/-- C6: after any `signOut` run — remote success, a returned error, or a
thrown one — the locally cached user and session are both null; from no
prior local state does a sign-out attempt leave it authenticated. -/
theorem signOut_always_clears_local_state {U S : Type}
    (st : AuthState U S) (remote : SignOutRemote) :
    (signOut st remote).1.user = none ∧ (signOut st remote).1.session = none := by
  cases remote <;> exact ⟨rfl, rfl⟩

/-- C10: the promise `signOut` returns always resolves: whatever the
remote call does (success, returned error, thrown error), no error is
propagated to the caller. -/
theorem signOut_never_rejects {U S : Type}
    (st : AuthState U S) (remote : SignOutRemote) :
    (signOut st remote).2 = none := by
  cases remote <;> rfl

theorem gallery_query_user_scoping_witness :
    filtersOnUser "u1" (fetchMediaQuery "u1" (some "f2")) ∧
    filtersOnUser "u1" (fetchFoldersQuery "u1") ∧
    (deleteFolderPhotosQuery "f1").filters = [.eqF "folder_id" "f1"] ∧
    (deleteFolderRowQuery "f1").filters = [.eqF "id" "f1"] ∧
    (deleteMediaRowQuery "m1").filters = [.eqF "id" "m1"] :=
  gallery_query_user_scoping "u1" "f1" "m1" (some "f2")

theorem fetchMedia_root_vs_folder_filter_witness :
    (QueryFilter.isNullF "folder_id" ∈ (fetchMediaQuery "u1" none).filters ∧
     ∀ v, QueryFilter.eqF "folder_id" v ∉ (fetchMediaQuery "u1" none).filters) ∧
    (QueryFilter.eqF "folder_id" "f1" ∈ (fetchMediaQuery "u1" (some "f1")).filters ∧
     QueryFilter.isNullF "folder_id" ∉ (fetchMediaQuery "u1" (some "f1")).filters) :=
  fetchMedia_root_vs_folder_filter "u1"

theorem signOut_always_clears_local_state_witness :
    (signOut (⟨some 7, some 9⟩ : AuthState Nat Nat) (.rejects ⟨"network down"⟩)).1.user
        = none ∧
    (signOut (⟨some 7, some 9⟩ : AuthState Nat Nat) (.rejects ⟨"network down"⟩)).1.session
        = none :=
  signOut_always_clears_local_state ⟨some 7, some 9⟩ (.rejects ⟨"network down"⟩)

theorem signOut_never_rejects_witness :
    (signOut (⟨some 3, some 4⟩ : AuthState Nat Nat) (.errorResult ⟨"denied"⟩)).2 = none :=
  signOut_never_rejects ⟨some 3, some 4⟩ (.errorResult ⟨"denied"⟩)
